import Mathlib

/-!
Verification of the CI pipeline core of `ci_automation.py`.

The embedding models the five core components (CommandExecutor, StageRunner,
PipelineOrchestrator, ReportGenerator, ConfigModel).  Python strings are
modelled as lists of characters (`Text`); Python floats (durations) are
modelled as exact rationals; the interaction with the operating system in
`run_command` (process completion, timeout expiry, launch failure) is
modelled by an explicit `ProcOutcome` describing what the spawned process
did, so that `run_command` itself is the pure function of the source's
branches.  The `exec` oracle handed to `run_stage`/`run_pipeline` maps a
command string and its timeout to the outcome of running it.
-/

namespace CIAutomation

/-- Python strings are sequences of characters. -/
abbrev Text := List Char

/-- `PipelineStatus` enum of `ci_automation.py` (lines 16-21). -/
inductive PipelineStatus where
  | pending
  | running
  | success
  | failed
  | cancelled
deriving DecidableEq, Repr

/-- The `.value` string of each `PipelineStatus` member. -/
def PipelineStatus.value : PipelineStatus → String
  | .pending => "pending"
  | .running => "running"
  | .success => "success"
  | .failed => "failed"
  | .cancelled => "cancelled"

/-- `PipelineResult` dataclass (lines 24-30): status, duration, output,
optional error, exit code.  Defaults as in the dataclass. -/
structure PipelineResult where
  status : PipelineStatus
  duration : ℚ
  output : Text
  error : Option Text := none
  exit_code : Int := 0
deriving DecidableEq, Repr

/-- Outcome of the spawned OS process inside `run_command`: it either exits
on its own before the timeout (with an exit code, captured stdout/stderr and
a wall-clock duration), or is still running when the timeout expires
(`subprocess.TimeoutExpired`, with the output drained after the kill), or
the launch itself raises an exception (caught by the outer `except`). -/
inductive ProcOutcome where
  | completed (exit_code : Int) (stdout stderr : Text) (duration : ℚ)
  | timedOut (stdout stderr : Text) (duration : ℚ)
  | launchFailure (message : Text) (duration : ℚ)
deriving DecidableEq, Repr

/-- `CIPipeline.run_command` (lines 95-154), as a function of the process
outcome.  Normal completion: `SUCCESS` iff exit code 0, stderr recorded in
`error`.  Timeout: `FAILED`, exit code `-1`, the timeout message with the
captured stderr appended.  Launch failure: `FAILED`, exit code `-1`, empty
output, the exception text as `error`.  Every branch returns a
`PipelineResult`; nothing propagates. -/
def run_command (timeout : Nat) (outcome : ProcOutcome) : PipelineResult :=
  match outcome with
  | .completed exit_code stdout stderr duration =>
      { status := if exit_code = 0 then PipelineStatus.success else PipelineStatus.failed,
        duration := duration,
        output := stdout,
        error := some stderr,
        exit_code := exit_code }
  | .timedOut stdout stderr duration =>
      { status := PipelineStatus.failed,
        duration := duration,
        output := stdout,
        error := some (("Command timed out after " ++ toString timeout ++ "s\n").toList ++ stderr),
        exit_code := -1 }
  | .launchFailure message duration =>
      { status := PipelineStatus.failed,
        duration := duration,
        output := [],
        error := some message,
        exit_code := -1 }

/-- One entry of a stage's command list: the keys that `run_stage` reads
with `.get` defaults (`name` is only used for log labels). -/
structure CmdConfig where
  name : Option String := none
  command : Option String := none
  timeout : Option Nat := none
deriving DecidableEq, Repr

/-- The body of the `run_stage` loop (lines 161-167): apply the `.get`
defaults (`command` defaults to `""`, `timeout` to `300`) and run the
command; the `exec` oracle supplies the process outcome for a given command
string and timeout. -/
def stage_exec (exec : String → Nat → ProcOutcome) (cmd_config : CmdConfig) : PipelineResult :=
  run_command (cmd_config.timeout.getD 300)
    (exec (cmd_config.command.getD "") (cmd_config.timeout.getD 300))

/-- `CIPipeline.run_stage` (lines 156-176): run the commands in order,
append each result, and break after the first result whose status is
`FAILED`.  `stage_name` is only a log label in the source. -/
def run_stage (exec : String → Nat → ProcOutcome) (stage_name : String) :
    List CmdConfig → List PipelineResult
  | [] => []
  | cmd_config :: rest =>
      let result := stage_exec exec cmd_config
      if result.status = PipelineStatus.failed then [result]
      else result :: run_stage exec stage_name rest

/-- A formatted step record produced by `format_stage_results`
(lines 211-218). -/
structure FormattedResult where
  step : Nat
  status : String
  duration : ℚ
  exit_code : Int
  output : Text
  error : Option Text
deriving DecidableEq, Repr

/-- The truncation rule of lines 216-217: text longer than 500 characters is
cut to its first 500 characters with the `"..."` marker appended; shorter
text passes through unchanged. -/
def truncate_text (s : Text) : Text :=
  if s.length > 500 then s.take 500 ++ "...".toList else s

/-- One iteration of the `format_stage_results` loop (lines 211-218), for a
0-based index `i` (the record's `step` is `i + 1`).  The `error` line keeps
Python's truthiness test `result.error and len(result.error) > 500`: a
`None` stays `None`, and an empty string is falsy, so it also passes
through. -/
def format_result (i : Nat) (result : PipelineResult) : FormattedResult :=
  { step := i + 1,
    status := result.status.value,
    duration := result.duration,
    exit_code := result.exit_code,
    output :=
      if result.output.length > 500 then result.output.take 500 ++ "...".toList
      else result.output,
    error :=
      match result.error with
      | none => none
      | some e => some (if e ≠ [] ∧ e.length > 500 then e.take 500 ++ "...".toList else e) }

/-- The `enumerate` loop of `format_stage_results`, carrying the running
index. -/
def format_stage_results_go (i : Nat) : List PipelineResult → List FormattedResult
  | [] => []
  | result :: rest => format_result i result :: format_stage_results_go (i + 1) rest

/-- `CIPipeline.format_stage_results` (lines 207-219). -/
def format_stage_results (results : List PipelineResult) : List FormattedResult :=
  format_stage_results_go 0 results

/-- The `summary` object of the report (lines 191-197). -/
structure Summary where
  total_stages : Nat
  successful_stages : Nat
  failed_stages : Nat
  total_duration : ℚ
  status : String
deriving DecidableEq, Repr

/-- The pipeline report (lines 188-203).  The wall-clock `timestamp` field
is an effect of the host clock and is not part of the embedding; no claim
refers to it. -/
structure Report where
  project : String
  summary : Summary
  stages_build : List FormattedResult
  stages_test : List FormattedResult
  stages_deploy : List FormattedResult
deriving DecidableEq, Repr

/-- `CIPipeline.generate_report` (lines 178-205), with the project name
passed explicitly (the source reads it from `self.config`).  Python's
`"SUCCESS" if not failed_stages else "FAILED"` tests the failed list for
emptiness. -/
def generate_report (project_name : String)
    (build_results test_results deploy_results : List PipelineResult) : Report :=
  let all_results := build_results ++ test_results ++ deploy_results
  let total_duration := (all_results.map (fun r => r.duration)).sum
  let failed_stages := all_results.filter (fun r => decide (r.status = PipelineStatus.failed))
  let successful_stages :=
    all_results.filter (fun r => decide (r.status = PipelineStatus.success))
  { project := project_name,
    summary :=
      { total_stages := all_results.length,
        successful_stages := successful_stages.length,
        failed_stages := failed_stages.length,
        total_duration := total_duration,
        status := if failed_stages.isEmpty then "SUCCESS" else "FAILED" },
    stages_build := format_stage_results build_results,
    stages_test := format_stage_results test_results,
    stages_deploy := format_stage_results deploy_results }

/-- The configuration fields that `run_pipeline` reads. -/
structure Config where
  project_name : String
  build_commands : List CmdConfig
  test_commands : List CmdConfig
  deployment_commands : List CmdConfig

/-- The stage-selection logic of `CIPipeline.run_pipeline` (lines 236-253):
Build always runs; if any Build result is `FAILED`, Test and Deploy are the
empty lists; otherwise Test runs, and if any Test result is `FAILED`,
Deploy is the empty list; otherwise Deploy runs. -/
def run_pipeline_stages (exec : String → Nat → ProcOutcome) (config : Config) :
    List PipelineResult × List PipelineResult × List PipelineResult :=
  let build_results := run_stage exec "Build" config.build_commands
  if build_results.any (fun r => decide (r.status = PipelineStatus.failed)) then
    (build_results, [], [])
  else
    let test_results := run_stage exec "Test" config.test_commands
    if test_results.any (fun r => decide (r.status = PipelineStatus.failed)) then
      (build_results, test_results, [])
    else
      (build_results, test_results, run_stage exec "Deploy" config.deployment_commands)

/-- `CIPipeline.run_pipeline` (lines 230-262): run the stages and generate
the report over the three produced result lists (saving the report to disk
is I/O outside the embedding). -/
def run_pipeline (exec : String → Nat → ProcOutcome) (config : Config) : Report :=
  let s := run_pipeline_stages exec config
  generate_report config.project_name s.1 s.2.1 s.2.2

/-- The results a stage's loop keeps, as a function of the full per-command
result sequence: everything up to and including the first `FAILED` result,
everything when none is `FAILED`. -/
def failCut : List PipelineResult → List PipelineResult
  | [] => []
  | r :: rest => if r.status = PipelineStatus.failed then [r] else r :: failCut rest

/-! ### Helper lemmas -/

/-- The stage loop computes `failCut` of the per-command result sequence. -/
theorem run_stage_eq_failCut (exec : String → Nat → ProcOutcome) (stage_name : String)
    (commands : List CmdConfig) :
    run_stage exec stage_name commands = failCut (commands.map (stage_exec exec)) := by
  induction commands with
  | nil => rfl
  | cons c rest ih =>
    simp only [run_stage, List.map_cons, failCut]
    by_cases h : (stage_exec exec c).status = PipelineStatus.failed
    · simp [h]
    · simp [h, ih]

/-- Every element kept by `failCut` comes from the input list. -/
theorem mem_of_mem_failCut {r : PipelineResult} {l : List PipelineResult}
    (h : r ∈ failCut l) : r ∈ l := by
  induction l with
  | nil => simp [failCut] at h
  | cons x rest ih =>
    simp only [failCut] at h
    by_cases hx : x.status = PipelineStatus.failed
    · rw [if_pos hx] at h
      simp only [List.mem_singleton] at h
      simp [h]
    · rw [if_neg hx] at h
      rcases List.mem_cons.mp h with h1 | h2
      · simp [h1]
      · exact List.mem_cons_of_mem _ (ih h2)

/-- When the first `FAILED` result sits at 0-based index `k`, `failCut`
keeps exactly the first `k + 1` results. -/
theorem failCut_eq_take_of_findIdx {l : List PipelineResult} {k : Nat}
    (hfind : l.findIdx (fun r => decide (r.status = PipelineStatus.failed)) = k)
    (hk : k < l.length) :
    failCut l = l.take (k + 1) := by
  induction l generalizing k with
  | nil => simp at hk
  | cons r rest ih =>
    rw [List.findIdx_cons] at hfind
    by_cases h : r.status = PipelineStatus.failed
    · simp [h] at hfind
      subst hfind
      simp [failCut, h]
    · simp [h] at hfind
      subst hfind
      simp only [List.length_cons] at hk
      simp only [failCut, if_neg h, List.take_succ_cons]
      rw [ih rfl (by omega)]

/-- When no result is `FAILED`, `failCut` keeps everything. -/
theorem failCut_eq_self {l : List PipelineResult}
    (h : ∀ r ∈ l, r.status ≠ PipelineStatus.failed) : failCut l = l := by
  induction l with
  | nil => rfl
  | cons r rest ih =>
    simp only [failCut]
    rw [if_neg (h r (List.mem_cons_self r rest))]
    rw [ih (fun x hx => h x (List.mem_cons_of_mem _ hx))]

/-- `run_command` only ever returns `SUCCESS` or `FAILED`. -/
theorem run_command_status_cases (timeout : Nat) (outcome : ProcOutcome) :
    (run_command timeout outcome).status = PipelineStatus.success ∨
      (run_command timeout outcome).status = PipelineStatus.failed := by
  cases outcome with
  | completed exit_code stdout stderr duration =>
    by_cases h : exit_code = 0 <;> simp [run_command, h]
  | timedOut stdout stderr duration => simp [run_command]
  | launchFailure message duration => simp [run_command]

/-- Formatting preserves list length. -/
theorem format_stage_results_go_length (i : Nat) (l : List PipelineResult) :
    (format_stage_results_go i l).length = l.length := by
  induction l generalizing i with
  | nil => rfl
  | cons r rest ih => simp [format_stage_results_go, ih]

/-- The `j`-th formatted record is `format_result` of the `j`-th result. -/
theorem format_stage_results_go_get (i : Nat) (l : List PipelineResult) (j : Nat)
    (hj : j < l.length) (hj2 : j < (format_stage_results_go i l).length) :
    (format_stage_results_go i l).get ⟨j, hj2⟩ = format_result (i + j) (l.get ⟨j, hj⟩) := by
  induction l generalizing i j with
  | nil => simp at hj
  | cons r rest ih =>
    cases j with
    | zero => simp [format_stage_results_go]
    | succ j =>
      have hj' : j < rest.length := by simpa using hj
      have hj2' : j < (format_stage_results_go (i + 1) rest).length := by
        rw [format_stage_results_go_length]
        exact hj'
      simp only [format_stage_results_go, List.get_cons_succ]
      rw [ih (i + 1) j hj' hj2']
      congr 1
      omega

/-- The filtered failed list is empty exactly when no result is `FAILED`. -/
theorem failed_filter_eq_nil_iff (l : List PipelineResult) :
    l.filter (fun r => decide (r.status = PipelineStatus.failed)) = [] ↔
      ¬ ∃ r ∈ l, r.status = PipelineStatus.failed := by
  simp [List.filter_eq_nil_iff]

/-! ### Concrete fixtures for the witnesses -/

/-- Oracle under which every command completes on its own with exit code 1. -/
def alwaysFailRun : String → Nat → ProcOutcome :=
  fun _ _ => ProcOutcome.completed 1 [] [] 0

/-- A two-command list whose first command fails under `alwaysFailRun`. -/
def sampleCommands : List CmdConfig :=
  [{ name := some "step1", command := some "cmd1", timeout := some 5 },
   { name := some "step2", command := some "cmd2" }]

/-- A configuration for the pipeline witnesses. -/
def sampleConfig : Config :=
  { project_name := "MyProject",
    build_commands := sampleCommands,
    test_commands := [{ command := some "test-cmd" }],
    deployment_commands := [{ command := some "deploy-cmd" }] }

/-- A failed result with no recorded error text. -/
def sampleFailed : PipelineResult :=
  { status := PipelineStatus.failed, duration := 2, output := [], error := none, exit_code := 1 }

/-- A result whose output is 600 characters long. -/
def sampleLongOutput : PipelineResult :=
  { status := PipelineStatus.success, duration := 1, output := List.replicate 600 'x',
    error := some [], exit_code := 0 }

/-- The result of `sampleCommands`'s first command under `alwaysFailRun`. -/
def sampleFirstResult : PipelineResult :=
  stage_exec alwaysFailRun { name := some "step1", command := some "cmd1", timeout := some 5 }

/-! ### Claims -/

/-- C1: for every triple of stage result lists, the report's summary status
is `"FAILED"` iff at least one result across the three lists is `FAILED`
(equivalently, iff `failed_stages > 0`), and `"SUCCESS"` otherwise
(iff `failed_stages = 0`). -/
theorem generate_report_overall_status (project_name : String)
    (build_results test_results deploy_results : List PipelineResult) :
    ((generate_report project_name build_results test_results deploy_results).summary.status =
        "FAILED" ↔
      ∃ r ∈ build_results ++ test_results ++ deploy_results,
        r.status = PipelineStatus.failed) ∧
    ((generate_report project_name build_results test_results deploy_results).summary.status =
        "FAILED" ↔
      0 < (generate_report project_name build_results test_results
        deploy_results).summary.failed_stages) ∧
    ((generate_report project_name build_results test_results deploy_results).summary.status =
        "SUCCESS" ↔
      (generate_report project_name build_results test_results
        deploy_results).summary.failed_stages = 0) := by
  have hstatus : (generate_report project_name build_results test_results
      deploy_results).summary.status =
      if ((build_results ++ test_results ++ deploy_results).filter
          (fun r => decide (r.status = PipelineStatus.failed))).isEmpty
      then "SUCCESS" else "FAILED" := rfl
  have hcount : (generate_report project_name build_results test_results
      deploy_results).summary.failed_stages =
      ((build_results ++ test_results ++ deploy_results).filter
        (fun r => decide (r.status = PipelineStatus.failed))).length := rfl
  by_cases hc : ∃ r ∈ build_results ++ test_results ++ deploy_results,
      r.status = PipelineStatus.failed
  · have hne : (build_results ++ test_results ++ deploy_results).filter
        (fun r => decide (r.status = PipelineStatus.failed)) ≠ [] := by
      rw [Ne, failed_filter_eq_nil_iff]
      exact not_not_intro hc
    have hEmp : ((build_results ++ test_results ++ deploy_results).filter
        (fun r => decide (r.status = PipelineStatus.failed))).isEmpty = false := by
      rw [Bool.eq_false_iff, Ne, List.isEmpty_iff]
      exact hne
    have hstat : (generate_report project_name build_results test_results
        deploy_results).summary.status = "FAILED" := by
      rw [hstatus, hEmp]
      simp
    have hpos : 0 < (generate_report project_name build_results test_results
        deploy_results).summary.failed_stages := by
      rw [hcount]
      exact List.length_pos.mpr hne
    refine ⟨iff_of_true hstat hc, iff_of_true hstat hpos, iff_of_false ?_ ?_⟩
    · intro hcon
      rw [hstat] at hcon
      exact absurd hcon (by decide)
    · intro hzero
      rw [hcount] at hzero
      exact hne (List.eq_nil_of_length_eq_zero hzero)
  · have hnil : (build_results ++ test_results ++ deploy_results).filter
        (fun r => decide (r.status = PipelineStatus.failed)) = [] :=
      (failed_filter_eq_nil_iff _).mpr hc
    have hEmp : ((build_results ++ test_results ++ deploy_results).filter
        (fun r => decide (r.status = PipelineStatus.failed))).isEmpty = true :=
      List.isEmpty_iff.mpr hnil
    have hstat : (generate_report project_name build_results test_results
        deploy_results).summary.status = "SUCCESS" := by
      rw [hstatus, hEmp]
      simp
    have hzero : (generate_report project_name build_results test_results
        deploy_results).summary.failed_stages = 0 := by
      rw [hcount, hnil]
      rfl
    refine ⟨iff_of_false ?_ hc, iff_of_false ?_ ?_, iff_of_true hstat hzero⟩
    · intro hcon
      rw [hstat] at hcon
      exact absurd hcon (by decide)
    · intro hcon
      rw [hstat] at hcon
      exact absurd hcon (by decide)
    · intro hpos
      rw [hzero] at hpos
      simp at hpos

/-- C1 witness: a single failed build result yields status `"FAILED"`. -/
theorem generate_report_overall_status_witness :
    (generate_report "MyProject" [sampleFailed] [] []).summary.status = "FAILED" :=
  (generate_report_overall_status "MyProject" [sampleFailed] [] []).1.mpr
    ⟨sampleFailed, by simp, rfl⟩

/-- C2: in `run_pipeline`'s stage selection, a `FAILED` result in the Build
list forces the Test and Deploy lists to be empty; with a clean Build, a
`FAILED` result in the Test list forces the Deploy list to be empty. -/
theorem run_pipeline_short_circuit (exec : String → Nat → ProcOutcome) (config : Config) :
    ((∃ r ∈ (run_pipeline_stages exec config).1, r.status = PipelineStatus.failed) →
      (run_pipeline_stages exec config).2.1 = [] ∧
        (run_pipeline_stages exec config).2.2 = []) ∧
    ((∀ r ∈ (run_pipeline_stages exec config).1, r.status ≠ PipelineStatus.failed) →
      (∃ r ∈ (run_pipeline_stages exec config).2.1, r.status = PipelineStatus.failed) →
      (run_pipeline_stages exec config).2.2 = []) := by
  by_cases hB : (run_stage exec "Build" config.build_commands).any
      (fun r => decide (r.status = PipelineStatus.failed)) = true
  · have hs : run_pipeline_stages exec config =
        (run_stage exec "Build" config.build_commands, [], []) := by
      simp only [run_pipeline_stages, if_pos hB]
    rw [hs]
    refine ⟨fun _ => ⟨rfl, rfl⟩, fun _ hex => ?_⟩
    simp at hex
  · by_cases hT : (run_stage exec "Test" config.test_commands).any
        (fun r => decide (r.status = PipelineStatus.failed)) = true
    · have hs : run_pipeline_stages exec config =
          (run_stage exec "Build" config.build_commands,
            run_stage exec "Test" config.test_commands, []) := by
        simp only [run_pipeline_stages, if_neg hB, if_pos hT]
      rw [hs]
      refine ⟨fun hex => ?_, fun _ _ => rfl⟩
      exfalso
      obtain ⟨r, hr, hrs⟩ := hex
      exact hB (List.any_eq_true.mpr ⟨r, hr, by simp [hrs]⟩)
    · have hs : run_pipeline_stages exec config =
          (run_stage exec "Build" config.build_commands,
            run_stage exec "Test" config.test_commands,
            run_stage exec "Deploy" config.deployment_commands) := by
        simp only [run_pipeline_stages, if_neg hB, if_neg hT]
      rw [hs]
      refine ⟨fun hex => ?_, fun _ hex => ?_⟩
      · exfalso
        obtain ⟨r, hr, hrs⟩ := hex
        exact hB (List.any_eq_true.mpr ⟨r, hr, by simp [hrs]⟩)
      · exfalso
        obtain ⟨r, hr, hrs⟩ := hex
        exact hT (List.any_eq_true.mpr ⟨r, hr, by simp [hrs]⟩)

/-- C2 witness: when every command fails, Build fails and the Test and
Deploy result lists are empty. -/
theorem run_pipeline_short_circuit_witness :
    (run_pipeline_stages alwaysFailRun sampleConfig).2.1 = [] ∧
      (run_pipeline_stages alwaysFailRun sampleConfig).2.2 = [] :=
  (run_pipeline_short_circuit alwaysFailRun sampleConfig).1 (by decide)

/-- C3: `run_stage` is fail-fast.  If the first `FAILED` result of the
per-command result sequence sits at 0-based index `k` (1-based position
`k + 1`), the returned list is exactly the first `k + 1` results, including
the failing one; if no result is `FAILED`, the returned list has exactly one
result per configured command, in configured order; an empty command list
yields an empty result list. -/
theorem run_stage_fail_fast (exec : String → Nat → ProcOutcome) (stage_name : String)
    (commands : List CmdConfig) (k : Nat) :
    ((commands.map (stage_exec exec)).findIdx
        (fun r => decide (r.status = PipelineStatus.failed)) = k →
      k < (commands.map (stage_exec exec)).length →
      run_stage exec stage_name commands = (commands.map (stage_exec exec)).take (k + 1) ∧
        (run_stage exec stage_name commands).length = k + 1) ∧
    ((∀ r ∈ commands.map (stage_exec exec), r.status ≠ PipelineStatus.failed) →
      run_stage exec stage_name commands = commands.map (stage_exec exec)) ∧
    run_stage exec stage_name [] = [] := by
  refine ⟨fun hfind hk => ?_, fun hnone => ?_, rfl⟩
  · have heq : run_stage exec stage_name commands =
        (commands.map (stage_exec exec)).take (k + 1) := by
      rw [run_stage_eq_failCut]
      exact failCut_eq_take_of_findIdx hfind hk
    refine ⟨heq, ?_⟩
    rw [heq, List.length_take]
    omega
  · rw [run_stage_eq_failCut]
    exact failCut_eq_self hnone

/-- C3 witness: under `alwaysFailRun` the first command of `sampleCommands`
fails, so the stage returns exactly one result; the empty list returns
nothing. -/
theorem run_stage_fail_fast_witness :
    (run_stage alwaysFailRun "Build" sampleCommands =
        (sampleCommands.map (stage_exec alwaysFailRun)).take 1 ∧
      (run_stage alwaysFailRun "Build" sampleCommands).length = 1) ∧
    run_stage alwaysFailRun "Build" [] = [] :=
  ⟨(run_stage_fail_fast alwaysFailRun "Build" sampleCommands 0).1 (by decide) (by decide),
    (run_stage_fail_fast alwaysFailRun "Build" sampleCommands 0).2.2⟩

/-- C4: the summary's `total_duration` is the sum of the `duration` fields
of exactly the results present in the three lists; in particular, for
`run_pipeline` it sums only the results actually produced (skipped stages
are empty lists and contribute nothing). -/
theorem generate_report_total_duration (project_name : String)
    (build_results test_results deploy_results : List PipelineResult)
    (exec : String → Nat → ProcOutcome) (config : Config) :
    (generate_report project_name build_results test_results
        deploy_results).summary.total_duration =
      ((build_results ++ test_results ++ deploy_results).map (fun r => r.duration)).sum ∧
    (run_pipeline exec config).summary.total_duration =
      (((run_pipeline_stages exec config).1 ++ (run_pipeline_stages exec config).2.1 ++
        (run_pipeline_stages exec config).2.2).map (fun r => r.duration)).sum :=
  ⟨rfl, rfl⟩

/-- C5: `format_stage_results` transforms the `output` field and the
non-absent `error` field of every result by the same truncation rule
(`truncate_text`: over 500 characters, keep the first 500 and append the
marker; otherwise unchanged), and an absent `error` stays absent
(`Option.map` sends `none` to `none`). -/
theorem format_stage_results_truncates (results : List PipelineResult) (i : Nat)
    (hi : i < results.length) :
    ∃ hf : i < (format_stage_results results).length,
      ((format_stage_results results).get ⟨i, hf⟩).output =
        truncate_text ((results.get ⟨i, hi⟩).output) ∧
      ((format_stage_results results).get ⟨i, hf⟩).error =
        Option.map truncate_text ((results.get ⟨i, hi⟩).error) := by
  have hf : i < (format_stage_results results).length := by
    simp only [format_stage_results]
    rw [format_stage_results_go_length]
    exact hi
  refine ⟨hf, ?_, ?_⟩
  · simp only [format_stage_results]
    rw [format_stage_results_go_get 0 results i hi
      (by rw [format_stage_results_go_length]; exact hi)]
    rfl
  · simp only [format_stage_results]
    rw [format_stage_results_go_get 0 results i hi
      (by rw [format_stage_results_go_length]; exact hi)]
    simp only [format_result]
    rcases herr : (results.get ⟨i, hi⟩).error with _ | e
    · rfl
    · simp only [Option.map_some']
      congr 1
      by_cases h5 : e.length > 500
      · have hne : e ≠ [] := by
          intro hcon
          rw [hcon] at h5
          simp at h5
        rw [if_pos ⟨hne, h5⟩, truncate_text, if_pos h5]
      · rw [truncate_text, if_neg h5, if_neg]
        intro hcon
        exact h5 hcon.2

/-- C5 witness: a result with a 600-character output and an empty-string
error is formatted by truncating the output and passing the error through. -/
theorem format_stage_results_truncates_witness :
    ∃ hf : 0 < (format_stage_results [sampleLongOutput]).length,
      ((format_stage_results [sampleLongOutput]).get ⟨0, hf⟩).output =
        truncate_text (([sampleLongOutput].get ⟨0, Nat.one_pos⟩).output) ∧
      ((format_stage_results [sampleLongOutput]).get ⟨0, hf⟩).error =
        Option.map truncate_text (([sampleLongOutput].get ⟨0, Nat.one_pos⟩).error) :=
  format_stage_results_truncates [sampleLongOutput] 0 Nat.one_pos

/-- C6: the truncation rule is idempotent; a string of at most 500
characters is unchanged; a 600-character string becomes exactly its first
500 characters followed by the marker. -/
theorem truncate_text_idempotent (s : Text) :
    truncate_text (truncate_text s) = truncate_text s ∧
    (s.length ≤ 500 → truncate_text s = s) ∧
    (s.length = 600 → truncate_text s = s.take 500 ++ "...".toList) := by
  have hm : ("...".toList).length = 3 := by decide
  refine ⟨?_, fun hle => ?_, fun h600 => ?_⟩
  · by_cases h : s.length > 500
    · have h1 : truncate_text s = s.take 500 ++ "...".toList := by
        rw [truncate_text, if_pos h]
      have hlt : (s.take 500 ++ "...".toList).length > 500 := by
        rw [List.length_append, List.length_take, hm]
        omega
      rw [h1, truncate_text, if_pos hlt]
      congr 1
      rw [List.take_append_eq_append_take, List.length_take]
      have hmin : min 500 s.length = 500 := by omega
      rw [hmin]
      simp [List.take_take]
    · have h1 : truncate_text s = s := by
        rw [truncate_text, if_neg h]
      rw [h1]
      exact h1
  · rw [truncate_text, if_neg (by omega)]
  · rw [truncate_text, if_pos (by omega)]

/-- C6 witness: truncating a concrete 600-character string yields its first
500 characters plus the marker. -/
theorem truncate_text_idempotent_witness :
    truncate_text (List.replicate 600 'x') =
      (List.replicate 600 'x').take 500 ++ "...".toList :=
  (truncate_text_idempotent (List.replicate 600 'x')).2.2 (by rw [List.length_replicate])

/-- C7: on a timeout, `run_command` returns status `FAILED`, exit code
`-1`, whatever stdout was captured before the kill, and an error message
stating the configured timeout was exceeded with the captured stderr
appended. -/
theorem run_command_timeout (timeout : Nat) (stdout stderr : Text) (duration : ℚ) :
    run_command timeout (ProcOutcome.timedOut stdout stderr duration) =
      { status := PipelineStatus.failed,
        duration := duration,
        output := stdout,
        error := some (("Command timed out after " ++ toString timeout ++ "s\n").toList
          ++ stderr),
        exit_code := -1 } := rfl

/-- C8: on a launch failure, `run_command` returns (never raises) a result
with status `FAILED`, exit code `-1`, empty output, and the launch-failure
description as the error; totality of `run_command` is the embedding of
"no exception propagates". -/
theorem run_command_launch_failure (timeout : Nat) (message : Text) (duration : ℚ) :
    run_command timeout (ProcOutcome.launchFailure message duration) =
      { status := PipelineStatus.failed,
        duration := duration,
        output := [],
        error := some message,
        exit_code := -1 } := rfl

/-- C9: every `FAILED` result returned by `run_command` has a non-absent
error field or a non-zero exit code. -/
theorem run_command_failed_has_evidence (timeout : Nat) (outcome : ProcOutcome)
    (h : (run_command timeout outcome).status = PipelineStatus.failed) :
    (run_command timeout outcome).error ≠ none ∨
      (run_command timeout outcome).exit_code ≠ 0 := by
  cases outcome <;> simp [run_command]

/-- C9 witness: a command completing with exit code 1 is `FAILED` and has
error or exit-code evidence. -/
theorem run_command_failed_has_evidence_witness :
    (run_command 300 (ProcOutcome.completed 1 [] [] 0)).error ≠ none ∨
      (run_command 300 (ProcOutcome.completed 1 [] [] 0)).exit_code ≠ 0 :=
  run_command_failed_has_evidence 300 (ProcOutcome.completed 1 [] [] 0) (by decide)

/-- C10: every result returned by `run_command`, and hence every element of
a list produced by `run_stage`, has status `SUCCESS` or `FAILED`; the other
statuses of the enum never appear in an execution result. -/
theorem execution_results_status_closed (exec : String → Nat → ProcOutcome)
    (stage_name : String) (commands : List CmdConfig) (timeout : Nat)
    (outcome : ProcOutcome) :
    ((run_command timeout outcome).status = PipelineStatus.success ∨
      (run_command timeout outcome).status = PipelineStatus.failed) ∧
    ∀ r ∈ run_stage exec stage_name commands,
      r.status = PipelineStatus.success ∨ r.status = PipelineStatus.failed := by
  refine ⟨run_command_status_cases timeout outcome, fun r hr => ?_⟩
  rw [run_stage_eq_failCut] at hr
  obtain ⟨c, hc, rfl⟩ := List.mem_map.mp (mem_of_mem_failCut hr)
  exact run_command_status_cases _ _

/-- C10 witness: a clean completion is `SUCCESS` or `FAILED`, and so is the
concrete member of a concrete stage run. -/
theorem execution_results_status_closed_witness :
    ((run_command 300 (ProcOutcome.completed 0 [] [] 1)).status = PipelineStatus.success ∨
      (run_command 300 (ProcOutcome.completed 0 [] [] 1)).status = PipelineStatus.failed) ∧
    (sampleFirstResult.status = PipelineStatus.success ∨
      sampleFirstResult.status = PipelineStatus.failed) :=
  ⟨(execution_results_status_closed alwaysFailRun "Build" sampleCommands 300
      (ProcOutcome.completed 0 [] [] 1)).1,
    (execution_results_status_closed alwaysFailRun "Build" sampleCommands 300
      (ProcOutcome.completed 0 [] [] 1)).2 sampleFirstResult (by decide)⟩

end CIAutomation
